import Mathlib

/-!
# Verification of the otel-cloudflare tracing core

A shallow embedding, in Lean 4, of the trace-context codec, the span engine,
the OTLP attribute encoder / exporters, the request-adapter ignore logic and
the `TracedError` instance check of the `otel-cloudflare` TypeScript library.

Conventions of the embedding:
* JavaScript strings handled character-by-character (the W3C codec, hex ids)
  are modelled as `List Char`; other strings as Lean `String`.
* Machine integers do not occur: all JS numbers relevant to the claims are
  epoch milliseconds (modelled as `Nat`) or attribute values (modelled as
  `Rat`, where `Number.isInteger` becomes "denominator = 1").
* `async` control flow is settled-value passing: a callback settles on one of
  four paths (sync return, async resolve, async reject, sync throw); the
  promise combinators of the source become explicit sequencing of the span
  and collector state along those paths.
* The global mutable collector (`activeSpanProcessor` holding a
  `SimpleSpanProcessor`) is threaded explicitly as
  `Option (List CloudflareSpan)` (`none` = no processor registered,
  `some buf` = registered buffer, `onEnd` = append).
* Randomness (`crypto.getRandomValues`) becomes an explicit byte-list input;
  wall-clock reads (`Date.now()`) become an explicit `now : Nat` input.
-/

namespace OtelCloudflare

/-! ## Trace context codec (src/provider.ts) -/

/-- The source checks hex fields with `/^[0-9a-f]+$/i`; this is the
per-character test of that character class (lowercase or uppercase). -/
def isHexDigit (c : Char) : Bool :=
  ('0' ≤ c && c ≤ '9') || ('a' ≤ c && c ≤ 'f') || ('A' ≤ c && c ≤ 'F')

/-- Model of `/^[0-9a-f]+$/i.test s`: non-empty and all characters hex. -/
def hexMatch (l : List Char) : Bool :=
  !l.isEmpty && l.all isHexDigit

/-- Helper for `String.prototype.split("-")`: returns the first group (up to
the first dash) paired with the remaining groups. -/
def splitDashAux : List Char → List Char × List (List Char)
  | [] => ([], [])
  | c :: rest =>
    let r := splitDashAux rest
    if c = '-' then ([], r.1 :: r.2)
    else (c :: r.1, r.2)

/-- Model of `s.split("-")` of the source, on character lists. Always
non-empty, and splitting the empty string yields `[""]` as in JS. -/
def splitDash (s : List Char) : List (List Char) :=
  (splitDashAux s).1 :: (splitDashAux s).2

/-- W3C trace context record (interface `TraceContext` in src/provider.ts). -/
structure TraceContext where
  version : List Char
  traceId : List Char
  spanId : List Char
  flags : List Char
deriving Repr, DecidableEq

/-- Parser `parseTraceparent` from src/provider.ts lines 67-89: split on `-`,
require exactly 4 fields, version `"00"`, 32/16/2 hex chars. Each early
`return null` of the source is one `if ... then none` branch here. -/
def parseTraceparent (s : List Char) : Option TraceContext :=
  match splitDash s with
  | [version, traceId, spanId, flags] =>
    if version ≠ ['0', '0'] then none
    else if traceId.length ≠ 32 ∨ hexMatch traceId = false then none
    else if spanId.length ≠ 16 ∨ hexMatch spanId = false then none
    else if flags.length ≠ 2 ∨ hexMatch flags = false then none
    else some ⟨version, traceId, spanId, flags⟩
  | _ => none

/-- Formatter `toTraceparent` from src/provider.ts lines 106-111: the
template string `` `00-${ctx.traceId}-${ctx.spanId}-01` `` (version and flags
are emitted as the fixed literals `"00"` and `"01"`; the function takes no
flags input at all). -/
def toTraceparent (traceId spanId : List Char) : List Char :=
  ['0', '0', '-'] ++ traceId ++ ['-'] ++ spanId ++ ['-', '0', '1']

/-! ## Id generation (src/provider.ts lines 34-51) -/

/-- Lowercase hex digit for a value below 16, as produced by
`Number.prototype.toString(16)`. -/
def hexDigitChar (n : Nat) : Char :=
  if n < 10 then Char.ofNat (48 + n) else Char.ofNat (87 + n)

/-- Encoding of one random byte: `b.toString(16).padStart(2, "0")` for
`b < 256` is exactly the two lowercase hex digits of `b`. -/
def byteToHex (b : Fin 256) : List Char :=
  [hexDigitChar (b.val / 16), hexDigitChar (b.val % 16)]

/-- Function `generateTraceId`: 16 random bytes (the explicit `bytes` input
models `crypto.getRandomValues`), each encoded to two lowercase hex chars and
joined. -/
def generateTraceId (bytes : List (Fin 256)) : List Char :=
  (bytes.map byteToHex).flatten

/-- Function `generateSpanId`: 8 random bytes, same encoding as
`generateTraceId`. -/
def generateSpanId (bytes : List (Fin 256)) : List Char :=
  (bytes.map byteToHex).flatten

/-! ## JavaScript attribute values (shared by the span engine and the
OTLP encoder of src/otlp.ts) -/

/-- A JavaScript value as it can occur in an attribute bag. `num` is a
rational: integral JS numbers are those with denominator 1. A `Date` is
modelled by its ISO-8601 rendering (the output of the built-in
`toISOString`), since only that rendering is observable in the encoder.
`obj` is a plain object (string-keyed, insertion-ordered). -/
inductive JsValue where
  | str (s : String)
  | num (q : Rat)
  | bool (b : Bool)
  | null
  | undefined
  | date (iso : String)
  | arr (xs : List JsValue)
  | obj (fields : List (String × JsValue))
deriving Repr

/-- Property assignment `m[k] = v` on a JS object modelled as an
insertion-ordered association list: an existing key keeps its position and is
overwritten, a new key is appended. -/
def setKey (m : List (String × JsValue)) (k : String) (v : JsValue) :
    List (String × JsValue) :=
  if m.any (fun p => p.1 = k) then
    m.map (fun p => if p.1 = k then (k, v) else p)
  else m ++ [(k, v)]

/-- Model of `Object.assign(m, adds)`: assign every entry of `adds` into `m`
in order. -/
def assignAll (m adds : List (String × JsValue)) : List (String × JsValue) :=
  adds.foldl (fun acc p => setKey acc p.1 p.2) m

/-- Value of one hex digit (`parseInt` digit step). -/
def hexDigitVal (c : Char) : Nat :=
  if '0' ≤ c ∧ c ≤ '9' then c.toNat - 48
  else if 'a' ≤ c ∧ c ≤ 'f' then c.toNat - 87
  else if 'A' ≤ c ∧ c ≤ 'F' then c.toNat - 55
  else 0

/-- Model of `parseInt(s, 16)` on all-hex input. -/
def hexToNat (l : List Char) : Nat :=
  l.foldl (fun acc c => acc * 16 + hexDigitVal c) 0

/-! ## Span engine (class CloudflareSpan, src/provider.ts lines 139-330) -/

/-- Constants of `SpanStatusCode` from `@opentelemetry/api`. -/
def UNSET : Nat := 0
/-- Status code `SpanStatusCode.OK`. -/
def OK : Nat := 1
/-- Status code `SpanStatusCode.ERROR`. -/
def ERROR : Nat := 2

/-- Enum `SpanKind` from `@opentelemetry/api`. -/
inductive SpanKind where
  | internal | server | client | producer | consumer
deriving Repr, DecidableEq

/-- Span status: code plus optional message. -/
structure SpanStatus where
  code : Nat
  message : Option String := none
deriving Repr, DecidableEq

/-- Remote/local span context (interface `SpanContext`). -/
structure SpanContext where
  traceId : List Char
  spanId : List Char
  traceFlags : Nat
  isRemote : Bool
deriving Repr, DecidableEq

/-- Function `toSpanContext` (src/provider.ts lines 94-101): flags are
hex-decoded to a bitmask and the context is marked remotely-originated. -/
def toSpanContext (ctx : TraceContext) : SpanContext :=
  { traceId := ctx.traceId
    spanId := ctx.spanId
    traceFlags := hexToNat ctx.flags
    isRemote := true }

/-- Function `spanContextFromTraceparent` (src/provider.ts lines 588-596):
parse, and convert on success. -/
def spanContextFromTraceparent (tp : List Char) : Option SpanContext :=
  (parseTraceparent tp).map toSpanContext

/-- Timestamped span event (interface `SpanEvent` in src/provider.ts). -/
structure SpanEvent where
  name : String
  timestamp : Nat
  attributes : List (String × JsValue)
deriving Repr

/-- Span link (interface `Link`): a span context plus attributes. -/
structure Link where
  context : SpanContext
  attributes : List (String × JsValue)
deriving Repr

/-- The state of a `CloudflareSpan` (its private fields). `TimeInput`
arguments are modelled as `Option Nat` (absent, or normalized epoch
milliseconds; the source normalizes `number`/`Date`/`HrTime` inputs to
milliseconds before use). -/
structure CloudflareSpan where
  spanContext : SpanContext
  parentSpanId : Option (List Char)
  kind : SpanKind
  name : String
  startTime : Nat
  endTime : Option Nat
  ended : Bool
  status : SpanStatus
  attributes : List (String × JsValue)
  events : List SpanEvent
  links : List Link
deriving Repr

namespace CloudflareSpan

/-- Method `isRecording`: true until ended. -/
def isRecording (s : CloudflareSpan) : Bool := !s.ended

/-- Method `setAttribute`: no-op once ended, otherwise assigns the key. -/
def setAttribute (s : CloudflareSpan) (k : String) (v : JsValue) :
    CloudflareSpan :=
  if s.ended then s
  else { s with attributes := setKey s.attributes k v }

/-- Method `setAttributes`: no-op once ended, otherwise
`Object.assign(this._attributes, attributes)`. -/
def setAttributes (s : CloudflareSpan) (attrs : List (String × JsValue)) :
    CloudflareSpan :=
  if s.ended then s
  else { s with attributes := assignAll s.attributes attrs }

/-- Method `addEvent` in the `(name, attributes?, startTime?)` overload used
by the library: no-op once ended, otherwise pushes an event timestamped with
the provided start time or `Date.now()`. -/
def addEvent (s : CloudflareSpan) (name : String)
    (attrs : List (String × JsValue)) (startTime : Option Nat) (now : Nat) :
    CloudflareSpan :=
  if s.ended then s
  else { s with events := s.events ++ [⟨name, startTime.getD now, attrs⟩] }

/-- Method `addLink`: no-op once ended, otherwise pushes the link. -/
def addLink (s : CloudflareSpan) (l : Link) : CloudflareSpan :=
  if s.ended then s
  else { s with links := s.links ++ [l] }

/-- Method `addLinks`: no-op once ended, otherwise pushes all links. -/
def addLinks (s : CloudflareSpan) (ls : List Link) : CloudflareSpan :=
  if s.ended then s
  else { s with links := s.links ++ ls }

/-- Method `setStatus`: no-op once ended, otherwise replaces the status. -/
def setStatus (s : CloudflareSpan) (st : SpanStatus) : CloudflareSpan :=
  if s.ended then s
  else { s with status := st }

/-- Method `updateName`: no-op once ended, otherwise renames. -/
def updateName (s : CloudflareSpan) (n : String) : CloudflareSpan :=
  if s.ended then s
  else { s with name := n }

end CloudflareSpan

/-- A thrown JS value as seen by `recordException`: a bare string, an
`Error` (name, message, optional stack), or anything else. -/
inductive Exception where
  | strExc (msg : String)
  | errExc (name msg : String) (stack : Option String)
  | otherExc
deriving Repr, DecidableEq

/-- The attribute bag `recordException` builds from the thrown value:
`exception.message` for a string, `exception.type`/`exception.message` and,
when a stack exists, `exception.stacktrace` for an `Error`, nothing
otherwise. -/
def exceptionAttributes : Exception → List (String × JsValue)
  | .strExc m => [("exception.message", .str m)]
  | .errExc n m (some stk) =>
      [("exception.type", .str n), ("exception.message", .str m),
       ("exception.stacktrace", .str stk)]
  | .errExc n m none =>
      [("exception.type", .str n), ("exception.message", .str m)]
  | .otherExc => []

namespace CloudflareSpan

/-- Method `recordException`: no-op once ended, otherwise adds an
`"exception"` event carrying the translated attributes. -/
def recordException (s : CloudflareSpan) (e : Exception) (time : Option Nat)
    (now : Nat) : CloudflareSpan :=
  if s.ended then s
  else addEvent s "exception" (exceptionAttributes e) time now

end CloudflareSpan

/-- Number of `"exception"` events recorded on a span. -/
def countExceptionEvents (s : CloudflareSpan) : Nat :=
  (s.events.filter (fun ev => ev.name = "exception")).length

/-- Combined state of one span plus the registered collector
(`activeSpanProcessor`): `none` when no processor is registered, otherwise
the buffer of the `SimpleSpanProcessor`. -/
structure TraceState where
  span : CloudflareSpan
  collector : Option (List CloudflareSpan)
deriving Repr

/-- Method `end` of `CloudflareSpan` (src/provider.ts lines 263-279): if
already ended, do nothing at all; otherwise set the ended flag, set the end
time to the provided timestamp or `Date.now()`, and notify the registered
processor (if any) by appending this span (`SimpleSpanProcessor.onEnd`). -/
def endSpanState (st : TraceState) (endTime : Option Nat) (now : Nat) :
    TraceState :=
  if st.span.ended then st
  else
    let s' := { st.span with ended := true, endTime := some (endTime.getD now) }
    { span := s', collector := st.collector.map (fun buf => buf ++ [s']) }

/-! ## Tracer (class CloudflareTracer, src/provider.ts lines 335-435) -/

/-- Options accepted by `startSpan`/`startActiveSpan` (`SpanOptions`). -/
structure SpanOptions where
  kind : Option SpanKind := none
  startTime : Option Nat := none
  attributes : Option (List (String × JsValue)) := none
  links : Option (List Link) := none

/-- Method `CloudflareTracer.startSpan` (src/provider.ts lines 336-364).
`parent` is `trace.getSpan(parentContext)?.spanContext()`: the span context
of the active parent span, if any. `freshTraceId`/`freshSpanId` model the
outputs of `generateTraceId()`/`generateSpanId()`, `now` models
`Date.now()`. The trace id is inherited from the parent or fresh, the span
id is always fresh, the parent span id is the parent's span id if any, the
kind defaults to `SpanKind.INTERNAL`, and the new span starts un-ended with
unset status and no events. -/
def startSpan (name : String) (options : SpanOptions)
    (parent : Option SpanContext) (freshTraceId freshSpanId : List Char)
    (now : Nat) : CloudflareSpan :=
  let traceId := match parent with
    | some p => p.traceId
    | none => freshTraceId
  let parentSpanId := parent.map (fun p => p.spanId)
  { spanContext := { traceId := traceId, spanId := freshSpanId,
                     traceFlags := 1, isRemote := false }
    parentSpanId := parentSpanId
    kind := options.kind.getD .internal
    name := name
    startTime := options.startTime.getD now
    endTime := none
    ended := false
    status := { code := UNSET, message := none }
    attributes := (options.attributes.getD [])
    events := []
    links := (options.links.getD []) }

/-- The four ways the callback of `startActiveSpan` can settle: return a
plain value, return a promise that resolves, return a promise that rejects,
or throw synchronously. -/
inductive Outcome (α : Type) where
  | syncReturn (v : α)
  | asyncResolve (v : α)
  | asyncReject (e : Exception)
  | syncThrow (e : Exception)

/-- The `try`/`then`/`catch` skeleton of `CloudflareTracer.startActiveSpan`
(src/provider.ts lines 407-434), applied to an already-created span. The
callback `fn` receives the state (it may mutate the span through the span
API) and settles on one of the four paths. On the two success paths the span
is ended; on the two failure paths the exception is recorded, the status set
to `ERROR`, the span ended, and the error re-thrown (`Except.error`). -/
def startActiveSpanRun {α : Type}
    (fn : TraceState → TraceState × Outcome α) (st : TraceState) (now : Nat) :
    TraceState × Except Exception α :=
  let r := fn st
  match r.2 with
  | .syncReturn v => (endSpanState r.1 none now, .ok v)
  | .asyncResolve v => (endSpanState r.1 none now, .ok v)
  | .asyncReject e =>
      let st2 := { r.1 with
        span := (r.1.span.recordException e none now).setStatus
          { code := ERROR, message := none } }
      (endSpanState st2 none now, .error e)
  | .syncThrow e =>
      let st2 := { r.1 with
        span := (r.1.span.recordException e none now).setStatus
          { code := ERROR, message := none } }
      (endSpanState st2 none now, .error e)

/-- Method `CloudflareTracer.startActiveSpan`: create the span via
`startSpan` with the effective parent context, make it active for the
duration of the callback (the callback receives it), and run the
`try`/`then`/`catch` skeleton. -/
def startActiveSpan {α : Type} (name : String) (options : SpanOptions)
    (parent : Option SpanContext) (freshTraceId freshSpanId : List Char)
    (now : Nat) (fn : TraceState → TraceState × Outcome α)
    (collector : Option (List CloudflareSpan)) :
    TraceState × Except Exception α :=
  startActiveSpanRun fn
    ⟨startSpan name options parent freshTraceId freshSpanId now, collector⟩ now

/-! ## withTrace (src/trace.ts lines 60-123) -/

/-- The inner callback `withTrace` hands to `startActiveSpan` (src/trace.ts
lines 97-121), expressed as a transformer on the user callback: on success
paths it ends the span and passes the value through; on failure paths it
records the exception, ends the span, and re-raises — it does NOT set the
span status. The resulting settled path is then what `startActiveSpan`
observes (its own handlers run after these, on the already-chained
promise). -/
def withTraceInner {α : Type} (fn : TraceState → TraceState × Outcome α)
    (now : Nat) (st : TraceState) : TraceState × Outcome α :=
  let r := fn st
  match r.2 with
  | .syncReturn v => (endSpanState r.1 none now, .syncReturn v)
  | .asyncResolve v => (endSpanState r.1 none now, .asyncResolve v)
  | .asyncReject e =>
      (endSpanState { r.1 with span := r.1.span.recordException e none now }
        none now, .asyncReject e)
  | .syncThrow e =>
      (endSpanState { r.1 with span := r.1.span.recordException e none now }
        none now, .syncThrow e)

/-- Function `withTrace`: runs `tracer.startActiveSpan` on the wrapped
callback. (Caller capture and the `parent` option only influence the span
name, attributes and parent context, which are parameters here.) -/
def withTrace {α : Type} (name : String) (options : SpanOptions)
    (parent : Option SpanContext) (freshTraceId freshSpanId : List Char)
    (now : Nat) (fn : TraceState → TraceState × Outcome α)
    (collector : Option (List CloudflareSpan)) :
    TraceState × Except Exception α :=
  startActiveSpan name options parent freshTraceId freshSpanId now
    (withTraceInner fn now) collector

/-! ## JSON.stringify model (built-in used by src/otlp.ts) -/

/-- Escaping of one character inside a JSON string literal, as the built-in
`JSON.stringify` does (control characters below 0x20 are escaped; this model
uses the uniform `\u00XX` form for the rarer ones). -/
def jsonEscapeChar (c : Char) : String :=
  if c = '"' then "\\\""
  else if c = '\\' then "\\\\"
  else if c = '\n' then "\\n"
  else if c = '\r' then "\\r"
  else if c = '\t' then "\\t"
  else if c.toNat < 32 then
    "\\u00" ++ ⟨[hexDigitChar (c.toNat / 16), hexDigitChar (c.toNat % 16)]⟩
  else String.singleton c

/-- A JSON string literal: quotes around the escaped characters. -/
def jsonQuote (s : String) : String :=
  "\"" ++ String.join (s.data.map jsonEscapeChar) ++ "\""

/-- Decimal rendering of a JS number in JSON output. Integral numbers render
as their integer part; the non-integral rendering is a model of the
built-in's shortest-decimal form and is not relied on by any theorem. -/
def jsonNum (q : Rat) : String :=
  if q.den = 1 then toString q.num else toString q

mutual

/-- Model of the built-in `JSON.stringify`. Returns `none` for `undefined`
(the built-in returns the value `undefined`, not a string); inside arrays an
`undefined` element renders as `null`, inside objects an `undefined` field
is omitted. A `Date` serializes via its ISO rendering (`toJSON`). -/
def jsonStringify : JsValue → Option String
  | .str s => some (jsonQuote s)
  | .num q => some (jsonNum q)
  | .bool b => some (cond b "true" "false")
  | .null => some "null"
  | .undefined => none
  | .date iso => some (jsonQuote iso)
  | .arr xs => some ("[" ++ String.intercalate "," (jsonStringifyElems xs) ++ "]")
  | .obj fs =>
      some ("\x7b" ++ String.intercalate "," (jsonStringifyFields fs) ++ "\x7d")

/-- Rendered elements of a JSON array (`undefined` renders as `null`). -/
def jsonStringifyElems : List JsValue → List String
  | [] => []
  | x :: rest => ((jsonStringify x).getD "null") :: jsonStringifyElems rest

/-- Rendered `"key":value` members of a JSON object (fields whose value
serializes to `undefined` are omitted). -/
def jsonStringifyFields : List (String × JsValue) → List String
  | [] => []
  | (k, v) :: rest =>
    match jsonStringify v with
    | none => jsonStringifyFields rest
    | some s => (jsonQuote k ++ ":" ++ s) :: jsonStringifyFields rest

end

/-! ## OTLP attribute encoding (src/otlp.ts lines 182-252) -/

/-- The test guarding recursion in `flattenAttributes`: a value is recursed
into exactly when it is non-null, of type `object`, not an array, and not a
`Date` — i.e. a plain object in this model. -/
def isPlainObject : JsValue → Bool
  | .obj _ => true
  | _ => false

/-- Worker for `flattenAttributes` of src/otlp.ts lines 187-210, threading
the result object `acc` exactly as the source threads `result`: each entry
either has its flattened inner object `Object.assign`-ed in (after a
recursive call on the dot-extended prefix with a fresh result object), or is
assigned at the dot-joined key. -/
def flattenAux : List (String × JsValue) → String → List (String × JsValue) →
    List (String × JsValue)
  | [], _, acc => acc
  | (k, .obj fields) :: rest, pre, acc =>
    let newKey := if pre = "" then k else pre ++ "." ++ k
    flattenAux rest pre (assignAll acc (flattenAux fields newKey []))
  | (k, v) :: rest, pre, acc =>
    let newKey := if pre = "" then k else pre ++ "." ++ k
    flattenAux rest pre (setKey acc newKey v)

/-- Function `flattenAttributes`: flatten nested plain objects to dot-joined
key paths, starting from an empty result object. -/
def flattenAttributes (obj : List (String × JsValue)) (pre : String := "") :
    List (String × JsValue) :=
  flattenAux obj pre []

/-- OTLP `AnyValue` (interface `OTLPAnyValue`): exactly one variant
populated. The source carries `intValue` as a decimal string. -/
inductive OTLPAnyValue where
  | stringValue (s : String)
  | intValue (s : String)
  | doubleValue (q : Rat)
  | boolValue (b : Bool)
deriving Repr, DecidableEq

/-- Function `toOTLPValue` (src/otlp.ts lines 213-241): `null`/`undefined`
become the empty string value; strings pass through; integral numbers become
an integer-value field carrying the decimal string, non-integral numbers a
float-value field; booleans pass through; arrays are serialized whole as a
JSON string; a `Date` becomes its ISO-8601 string; any remaining object is
stringified. (The final `String(value)` fallback of the source is
unreachable in this value model.) -/
def toOTLPValue : JsValue → OTLPAnyValue
  | .null => .stringValue ""
  | .undefined => .stringValue ""
  | .str s => .stringValue s
  | .num q => if q.den = 1 then .intValue (toString q.num) else .doubleValue q
  | .bool b => .boolValue b
  | .arr xs => .stringValue ((jsonStringify (.arr xs)).getD "undefined")
  | .date iso => .stringValue iso
  | .obj fs => .stringValue ((jsonStringify (.obj fs)).getD "undefined")

/-- OTLP attribute key/value pair (interface `OTLPKeyValue`). -/
structure OTLPKeyValue where
  key : String
  value : OTLPAnyValue
deriving Repr, DecidableEq

/-- Function `attributesToOTLP` (src/otlp.ts lines 244-252): flatten nested
objects to dot notation, then map every entry to an OTLP key/value. -/
def attributesToOTLP (attrs : List (String × JsValue)) : List OTLPKeyValue :=
  (flattenAttributes attrs).map (fun p => ⟨p.1, toOTLPValue p.2⟩)

/-! ## OTLP span/log conversion and export (src/otlp.ts lines 127-493) -/

/-- Function `msToNanoString`: milliseconds times 1e6 rendered as a decimal
string (the source goes through `BigInt` to avoid precision loss; on `Nat`
the multiplication is exact). -/
def msToNanoString (ms : Nat) : String :=
  toString (ms * 1000000)

/-- Function `spanKindToOTLP`: the wire enum for each span kind. (The
source's `default: 0` branch is unreachable over this five-value enum.) -/
def spanKindToOTLP : SpanKind → Nat
  | .internal => 1
  | .server => 2
  | .client => 3
  | .producer => 4
  | .consumer => 5

/-- Function `statusCodeToOTLP`: OK to 1, ERROR to 2, anything else 0. -/
def statusCodeToOTLP (code : Nat) : Nat :=
  if code = OK then 1
  else if code = ERROR then 2
  else 0

/-- Log level union type of src/logger.ts. -/
inductive LogLevel where
  | trace | debug | info | warn | error | fatal
deriving Repr, DecidableEq

/-- Function `logLevelToSeverity`: wire severity numbers. -/
def logLevelToSeverity : LogLevel → Nat
  | .trace => 1
  | .debug => 5
  | .info => 9
  | .warn => 13
  | .error => 17
  | .fatal => 21

/-- Rendering of `level.toUpperCase()` for the severity text. -/
def levelUpper : LogLevel → String
  | .trace => "TRACE"
  | .debug => "DEBUG"
  | .info => "INFO"
  | .warn => "WARN"
  | .error => "ERROR"
  | .fatal => "FATAL"

/-- JS truthiness of an optional string (absent or empty is falsy). -/
def truthyStr : Option String → Bool
  | none => false
  | some s => !(s == "")

/-- JS truthiness of an optional number (absent or zero is falsy). -/
def truthyNat : Option Nat → Bool
  | none => false
  | some n => !(n == 0)

/-- Caller location attached to log entries (class `CallerInfo` of
src/caller.ts, restricted to the fields the exporter reads; the `function`
field holds the resolved name, collapsing the raw field and the
parent-chain-walking getter, which no claim depends on). -/
structure CallerInfo where
  file : Option String
  function : Option String
  line : Option Nat
deriving Repr, DecidableEq

/-- Method `CallerInfo.isEmpty`: no truthy file, function or line. -/
def CallerInfo.isEmpty (c : CallerInfo) : Bool :=
  !truthyStr c.file && !truthyStr c.function && !truthyNat c.line

/-- A structured log entry (interface `LogEntry` of src/logger.ts;
`timestamp` is `entry.timestamp.getTime()` in epoch milliseconds). -/
structure LogEntry where
  level : LogLevel
  message : String
  timestamp : Nat
  attributes : List (String × JsValue)
  traceId : Option (List Char)
  spanId : Option (List Char)
  caller : Option CallerInfo

/-- Nanosecond timestamp with a microsecond ordering offset (function
`msToNanoStringWithOffset`). -/
def msToNanoStringWithOffset (ms : Nat) (offsetMicros : Nat := 0) : String :=
  toString (ms * 1000000 + offsetMicros * 1000)

/-- Wire status (interface `OTLPStatus`). -/
structure OTLPStatus where
  code : Nat
  message : Option String
deriving Repr, DecidableEq

/-- Wire event (interface `OTLPEvent`). -/
structure OTLPEvent where
  timeUnixNano : String
  name : String
  attributes : List OTLPKeyValue
  droppedAttributesCount : Nat
deriving Repr, DecidableEq

/-- Wire link (interface `OTLPLink`). -/
structure OTLPLink where
  traceId : List Char
  spanId : List Char
  attributes : List OTLPKeyValue
  droppedAttributesCount : Nat
deriving Repr, DecidableEq

/-- Wire span (interface `OTLPSpan`). -/
structure OTLPSpan where
  traceId : List Char
  spanId : List Char
  parentSpanId : Option (List Char)
  name : String
  kind : Nat
  startTimeUnixNano : String
  endTimeUnixNano : String
  attributes : List OTLPKeyValue
  droppedAttributesCount : Nat
  events : List OTLPEvent
  droppedEventsCount : Nat
  links : List OTLPLink
  droppedLinksCount : Nat
  status : OTLPStatus
deriving Repr, DecidableEq

/-- Wire log record (interface `OTLPLogRecord`). -/
structure OTLPLogRecord where
  timeUnixNano : String
  severityNumber : Nat
  severityText : String
  body : OTLPAnyValue
  attributes : List OTLPKeyValue
  droppedAttributesCount : Nat
  traceId : Option (List Char)
  spanId : Option (List Char)
deriving Repr, DecidableEq

/-- Instrumentation scope on the wire. -/
structure OTLPScope where
  name : String
  version : Option String
deriving Repr, DecidableEq

/-- One `scopeSpans` entry of the trace envelope. -/
structure ScopeSpans where
  scope : OTLPScope
  spans : List OTLPSpan
deriving Repr, DecidableEq

/-- One `resourceSpans` entry of the trace envelope. -/
structure ResourceSpans where
  resourceAttributes : List OTLPKeyValue
  scopeSpans : List ScopeSpans
deriving Repr, DecidableEq

/-- Trace export envelope (`ExportTraceServiceRequest`). -/
structure ExportTraceServiceRequest where
  resourceSpans : List ResourceSpans
deriving Repr, DecidableEq

/-- One `scopeLogs` entry of the log envelope. -/
structure ScopeLogs where
  scope : OTLPScope
  logRecords : List OTLPLogRecord
deriving Repr, DecidableEq

/-- One `resourceLogs` entry of the log envelope. -/
structure ResourceLogs where
  resourceAttributes : List OTLPKeyValue
  scopeLogs : List ScopeLogs
deriving Repr, DecidableEq

/-- Log export envelope (`ExportLogsServiceRequest`). -/
structure ExportLogsServiceRequest where
  resourceLogs : List ResourceLogs
deriving Repr, DecidableEq

/-- Function `spanToOTLP` (src/otlp.ts lines 259-291). A missing end time
falls back to `Date.now()` (`now`). -/
def spanToOTLP (span : CloudflareSpan) (now : Nat) : OTLPSpan :=
  { traceId := span.spanContext.traceId
    spanId := span.spanContext.spanId
    parentSpanId := span.parentSpanId
    name := span.name
    kind := spanKindToOTLP span.kind
    startTimeUnixNano := msToNanoString span.startTime
    endTimeUnixNano := msToNanoString (span.endTime.getD now)
    attributes := attributesToOTLP span.attributes
    droppedAttributesCount := 0
    events := span.events.map (fun e =>
      ⟨msToNanoString e.timestamp, e.name, attributesToOTLP e.attributes, 0⟩)
    droppedEventsCount := 0
    links := span.links.map (fun l =>
      ⟨l.context.traceId, l.context.spanId, attributesToOTLP l.attributes, 0⟩)
    droppedLinksCount := 0
    status := ⟨statusCodeToOTLP span.status.code, span.status.message⟩ }

/-- Function `buildTraceExportRequest` (src/otlp.ts lines 294-324): the
`service.name` resource attribute followed by the configured resource
attributes, one scope named `otel-cloudflare`. -/
def buildTraceExportRequest (spans : List CloudflareSpan)
    (serviceName : String)
    (resourceAttributes : Option (List (String × String)))
    (version : String) (now : Nat) : ExportTraceServiceRequest :=
  let attrs : List OTLPKeyValue :=
    ⟨"service.name", .stringValue serviceName⟩ ::
      (resourceAttributes.getD []).map (fun p => ⟨p.1, .stringValue p.2⟩)
  ⟨[⟨attrs, [⟨⟨"otel-cloudflare", some version⟩,
    spans.map (fun s => spanToOTLP s now)⟩]⟩]⟩

/-- Function `logToOTLP` (src/otlp.ts lines 340-374): caller info is pushed
as `code.*` attributes when present and non-empty; the timestamp carries the
per-index microsecond ordering offset. -/
def logToOTLP (entry : LogEntry) (offsetMicros : Nat := 0) : OTLPLogRecord :=
  let attrs := attributesToOTLP entry.attributes
  let attrs := match entry.caller with
    | some c =>
      if !c.isEmpty then
        let a1 := attrs ++ [⟨"code.filepath", .stringValue (c.file.getD "")⟩]
        let a2 := if truthyNat c.line then
            a1 ++ [⟨"code.lineno", .intValue (toString (c.line.getD 0))⟩]
          else a1
        if truthyStr c.function then
          a2 ++ [⟨"code.function", .stringValue (c.function.getD "")⟩]
        else a2
      else attrs
    | none => attrs
  { timeUnixNano := msToNanoStringWithOffset entry.timestamp offsetMicros
    severityNumber := logLevelToSeverity entry.level
    severityText := levelUpper entry.level
    body := .stringValue entry.message
    attributes := attrs
    droppedAttributesCount := 0
    traceId := entry.traceId
    spanId := entry.spanId }

/-- Function `buildLogExportRequest` (src/otlp.ts lines 377-408): each log
record gets its list index as microsecond offset to preserve ordering. -/
def buildLogExportRequest (logs : List LogEntry) (serviceName : String)
    (resourceAttributes : Option (List (String × String)))
    (version : String) : ExportLogsServiceRequest :=
  let attrs : List OTLPKeyValue :=
    ⟨"service.name", .stringValue serviceName⟩ ::
      (resourceAttributes.getD []).map (fun p => ⟨p.1, .stringValue p.2⟩)
  ⟨[⟨attrs, [⟨⟨"otel-cloudflare", some version⟩,
    logs.mapIdx (fun i log => logToOTLP log i)⟩]⟩]⟩

/-- Exporter configuration (interface `OTLPExporterConfig`). -/
structure OTLPExporterConfig where
  endpoint : String
  headers : List (String × String)
  serviceName : Option String
  resourceAttributes : Option (List (String × String))

/-- The observable part of a `fetch` response in the exporter: the `ok`
flag, status, status text and the `text()` body read, which itself can
reject (`Except.error`). -/
structure HttpResponse where
  ok : Bool
  status : Nat
  statusText : String
  text : Except String String

/-- Outcome of one export call: what was written to the console error side
channel, and how the returned promise settles (`Except.ok ()` = resolves
normally, `Except.error` = rejects to the caller). -/
structure ExportOutcome where
  consoleErrors : List String
  result : Except String Unit

/-- Whether a transport outcome is a failure for the purposes of the
exporter: a transport-level rejection or a non-2xx (`!ok`) response. -/
def isTransportFailure (t : Except String HttpResponse) : Bool :=
  match t with
  | .error _ => true
  | .ok r => !r.ok

/-- Function `exportTraces` (src/otlp.ts lines 418-453). The `transport`
argument models the `fetch` call (original unpatched fetch, or global
fetch); its rejection is the `catch` branch of the source, which logs to
`console.error` and falls through, so the function always resolves
(`Except.ok ()`). A non-`ok` response is logged and also falls through. -/
def exportTraces (config : OTLPExporterConfig) (spans : List CloudflareSpan)
    (serviceName : String) (now : Nat)
    (transport : String → ExportTraceServiceRequest →
      Except String HttpResponse) : ExportOutcome :=
  if spans.length = 0 then ⟨[], .ok ()⟩
  else
    let url := config.endpoint ++ "/v1/traces"
    let body := buildTraceExportRequest spans
      (config.serviceName.getD serviceName) config.resourceAttributes
      "5.3.0" now
    match transport url body with
    | .error e => ⟨["OTLP trace export error: " ++ e], .ok ()⟩
    | .ok response =>
      if !response.ok then
        ⟨["OTLP trace export failed: " ++ toString response.status ++ " " ++
          response.statusText], .ok ()⟩
      else ⟨[], .ok ()⟩

/-- Function `exportLogs` (src/otlp.ts lines 459-493). Same try/catch
structure as `exportTraces`; additionally the failure branch awaits
`response.text()`, whose rejection is also caught by the outer catch. -/
def exportLogs (config : OTLPExporterConfig) (logs : List LogEntry)
    (serviceName : String)
    (transport : String → ExportLogsServiceRequest →
      Except String HttpResponse) : ExportOutcome :=
  if logs.length = 0 then ⟨[], .ok ()⟩
  else
    let url := config.endpoint ++ "/v1/logs"
    let effectiveServiceName := config.serviceName.getD serviceName
    let body := buildLogExportRequest logs effectiveServiceName
      config.resourceAttributes "5.3.0"
    match transport url body with
    | .error e => ⟨["[otel-cloudflare] OTLP log export error: " ++ e], .ok ()⟩
    | .ok response =>
      if !response.ok then
        match response.text with
        | .error e =>
            ⟨["[otel-cloudflare] OTLP log export error: " ++ e], .ok ()⟩
        | .ok t =>
            ⟨["[otel-cloudflare] OTLP log export failed: " ++
              toString response.status ++ " " ++ response.statusText ++ " " ++
              t], .ok ()⟩
      else ⟨[], .ok ()⟩

/-! ## Request adapters and the ignore list (src/instrument.ts) -/

/-- A configured ignore pattern: an exact pathname string, or a `RegExp`
modelled by its `test` predicate. -/
inductive UrlPattern where
  | strPat (s : String)
  | regexPat (test : String → Bool)

/-- Constant `DEFAULT_IGNORE_URLS` (src/instrument.ts lines 653-661): the
health-check endpoints. -/
def DEFAULT_IGNORE_URLS : List UrlPattern :=
  [.strPat "/health", .strPat "/healthz", .strPat "/ready", .strPat "/readyz",
   .strPat "/live", .strPat "/livez", .strPat "/ping"]

/-- Function `shouldIgnoreUrl` (src/instrument.ts lines 666-685), applied to
the request's URL pathname (the `new URL(request.url).pathname` built-in is
collapsed into the pathname argument): fall back to the default list when no
list is configured, an empty list ignores nothing, otherwise some pattern
must match — exact string equality for string patterns, `RegExp.test` for
pattern entries. -/
def shouldIgnoreUrl (pathname : String)
    (ignoreUrls : Option (List UrlPattern)) : Bool :=
  let patterns := ignoreUrls.getD DEFAULT_IGNORE_URLS
  if patterns.length = 0 then false
  else patterns.any fun p =>
    match p with
    | .strPat s => pathname == s
    | .regexPat t => t pathname

/-- The parts of an inbound `Request` the adapters read for the ignore
decision and parent extraction: method, URL pathname, and the `traceparent`
header. -/
structure Request where
  method : String
  pathname : String
  traceparent : Option (List Char)

/-- The parts of a `Response` observable in this model. -/
structure Response where
  status : Nat
  body : String
deriving Repr, DecidableEq

/-- Function `initOTLP` of src/flush.ts (lines 359-438), reduced to its
effect on the span-collector slot, which is the only effect the claims
read. The source runs `initTracing()` and `patchGlobalFetch()` (both
idempotent, no collector effect), resolves the exporter config (read only
by the returned `FlushContext`), and then registers the collector
idempotently: `let spanProcessor = getSpanProcessor(); if (!spanProcessor)
{ spanProcessor = new SimpleSpanProcessor(); setSpanProcessor(spanProcessor); }`
— keep an already-registered processor's buffer, else register a fresh
empty one. The registration is unconditional: it happens whether or not an
exporter config resolves. (The parallel `OTLPLogHandler` registration and
the returned `FlushContext` are outside this model.) -/
def initOTLP (collector : Option (List CloudflareSpan)) :
    Option (List CloudflareSpan) :=
  match collector with
  | some buf => some buf
  | none => some []

/-- The subset of `InstrumentOptionsObject` the ignore logic reads. -/
structure InstrumentOptionsObject where
  ignoreUrls : Option (List UrlPattern) := none

/-- Effects of one instrumented fetch invocation: the response returned to
the caller, the collector state afterwards, and the spans the adapter
created during handling (in creation order). -/
structure FetchEffects where
  response : Response
  collector : Option (List CloudflareSpan)
  spansCreated : List CloudflareSpan

/-- The `instrumented.fetch` wrapper built by `instrument()`
(src/instrument.ts lines 826-933), reduced to its span/collector effects.
The ignore branch is literal source: `if (shouldIgnoreUrl(request,
opts.ignoreUrls)) return originalFetch(request, env, ctx);` — it runs before
`initOTLP` and before any span creation. The traced branch registers the
collector, starts the SERVER span named `"{method} {pathname}"` (parent from
the `traceparent` header when parseable), invokes the handler, records the
status code (error status at >= 400), and ends the span, which appends it to
the collector. Body capture, request-summary logging and response-header
rewriting do not touch spans or the collector and are outside this model;
the handler is total here (its throw path is not needed by any claim). -/
def instrumentFetchRun (opts : InstrumentOptionsObject)
    (originalFetch : Request → Response) (req : Request)
    (collector : Option (List CloudflareSpan)) (ft fs : List Char)
    (now : Nat) : FetchEffects :=
  if shouldIgnoreUrl req.pathname opts.ignoreUrls then
    ⟨originalFetch req, collector, []⟩
  else
    let collector1 := initOTLP collector
    let parent := req.traceparent.bind spanContextFromTraceparent
    let span := startSpan (req.method ++ " " ++ req.pathname)
      { kind := some .server } parent ft fs now
    let resp := originalFetch req
    let span2 := span.setAttribute "http.response.status_code"
      (.num resp.status)
    let span3 := if resp.status ≥ 400 then
        span2.setStatus ⟨ERROR, some ("HTTP " ++ toString resp.status)⟩
      else span2
    let st := endSpanState ⟨span3, collector1⟩ none now
    ⟨resp, st.collector, [st.span]⟩

/-- Effects of one `traceHandler` invocation. `handlerSpan` is the span
passed to the handler callback. -/
structure TraceHandlerEffects where
  response : Response
  collector : Option (List CloudflareSpan)
  handlerSpan : CloudflareSpan
  spansCreated : List CloudflareSpan

/-- Function `traceHandler` (src/instrument.ts lines 472-641), reduced to
its span/collector effects. `initOTLP` runs first (line 479), registering
the collector per the `initOTLP` model above. On an ignored URL the source still
creates a span: `const noopSpan = trace.getTracer("otel-cloudflare")
.startSpan("noop"); noopSpan.end(); return await handler(noopSpan);` — that
span is a real `CloudflareSpan` (recording until ended) whose `end()`
notifies the registered collector. The traced branch mirrors
`instrumentFetchRun` (the handler-throw path and body/log handling are
outside this model). `activeParent` models the span context active in
`context.active()` at entry, used as the parent when no `traceparent` header
parses. -/
def traceHandlerRun (req : Request) (handler : CloudflareSpan → Response)
    (ignoreUrls : Option (List UrlPattern))
    (activeParent : Option SpanContext)
    (collector : Option (List CloudflareSpan)) (ft fs : List Char)
    (now : Nat) : TraceHandlerEffects :=
  let collector0 := initOTLP collector
  if shouldIgnoreUrl req.pathname ignoreUrls then
    let noopSpan := startSpan "noop" {} activeParent ft fs now
    let st := endSpanState ⟨noopSpan, collector0⟩ none now
    ⟨handler st.span, st.collector, st.span, [st.span]⟩
  else
    let headerParent := req.traceparent.bind spanContextFromTraceparent
    let effParent := match headerParent with
      | some p => some p
      | none => activeParent
    let span := startSpan (req.method ++ " " ++ req.pathname)
      { kind := some .server } effParent ft fs now
    let resp := handler span
    let span2 := span.setAttribute "http.response.status_code"
      (.num resp.status)
    let span3 := if resp.status ≥ 400 then
        span2.setStatus ⟨ERROR, some ("HTTP " ++ toString resp.status)⟩
      else span2
    let st := endSpanState ⟨span3, collector0⟩ none now
    ⟨resp, st.collector, st.span, [st.span]⟩

/-! ## TracedError custom instanceof (src/error.ts lines 139-153) -/

/-- A JavaScript value as seen by the custom instance check of
`TracedError`: an object whose direct prototype is `TracedError.prototype`
(the constructor pins it with `Object.setPrototypeOf`), an `Error` with a
different direct prototype, a non-`Error` object, or a non-object. The
`cause` property is always present in the model: an absent cause reads as
`undefined`, which is the non-object `primitive` (exactly how the source's
loop sees it). -/
inductive JsErrValue where
  | traced (cause : JsErrValue)
  | plainError (cause : JsErrValue)
  | nonErrorObject
  | primitive
deriving Repr, DecidableEq

/-- The `while (current instanceof Error)` loop of the check: a `traced`
value passes the direct-prototype test immediately; a `plainError` fails it
and the loop moves to its cause; a non-`Error` value exits the loop with
`false`. -/
def hasInstanceWalk : JsErrValue → Bool
  | .traced _ => true
  | .plainError c => hasInstanceWalk c
  | .nonErrorObject => false
  | .primitive => false

/-- Static method `TracedError[Symbol.hasInstance]`: reject non-objects
(`!instance || typeof instance !== "object"`), then walk the cause chain. -/
def tracedErrorHasInstance (v : JsErrValue) : Bool :=
  match v with
  | .primitive => false
  | _ => hasInstanceWalk v

/-- The reachability predicate of the claim, written from its words:
following `e`, `e.cause`, `e.cause.cause`, ... while each element is an
`Error`, one reaches an object whose direct prototype is
`TracedError.prototype`. -/
inductive ReachesTracedProto : JsErrValue → Prop where
  | here (c : JsErrValue) : ReachesTracedProto (.traced c)
  | step (c : JsErrValue) (h : ReachesTracedProto c) :
      ReachesTracedProto (.plainError c)

end OtelCloudflare

namespace OtelCloudflare

/-! ## Theorems: trace context codec -/

/-- A hex digit is never a dash. -/
theorem isHexDigit_ne_dash {c : Char} (h : isHexDigit c = true) : c ≠ '-' := by
  intro he
  rw [he] at h
  exact absurd h (by decide)

/-- Evaluation of `splitDashAux` on a dash-free list: the list itself and no
further groups. -/
theorem splitDashAux_no_dash (a : List Char) (h : ∀ c ∈ a, c ≠ '-') :
    splitDashAux a = (a, []) := by
  induction a with
  | nil => rfl
  | cons c rest ih =>
    have hc : c ≠ '-' := h c (by simp)
    have hr := ih (fun x hx => h x (by simp [hx]))
    simp [splitDashAux, hr, hc]

/-- Splitting `a ++ "-" ++ b` where `a` is dash-free peels off `a` as the
first group. -/
theorem splitDash_append (a b : List Char) (h : ∀ c ∈ a, c ≠ '-') :
    splitDash (a ++ '-' :: b) = a :: splitDash b := by
  induction a with
  | nil => simp [splitDash, splitDashAux]
  | cons c rest ih =>
    have hc : c ≠ '-' := h c (by simp)
    have hr := ih (fun x hx => h x (by simp [hx]))
    simp only [splitDash, List.cons_append, splitDashAux, hc, if_false] at *
    simp_all

/-- Dash-free lists split into a single group. -/
theorem splitDash_no_dash (a : List Char) (h : ∀ c ∈ a, c ≠ '-') :
    splitDash a = [a] := by
  simp [splitDash, splitDashAux_no_dash a h]

/-- Hex strings contain no dash. -/
theorem all_hex_no_dash {l : List Char} (h : l.all isHexDigit = true) :
    ∀ c ∈ l, c ≠ '-' := by
  intro c hc
  exact isHexDigit_ne_dash (by simpa using (List.all_eq_true.mp h c hc))

/-- C4. For every 32-hex-char `traceId` and 16-hex-char `spanId`, parsing
the wire string produced by `toTraceparent` succeeds and returns the same
`traceId` and `spanId` exactly, with version `"00"` and flags `"01"` (the
emitted flags are the literal `"01"` regardless of any flags on the input
context, since `toTraceparent` takes no flags at all). -/
theorem parse_toTraceparent_roundtrip (traceId spanId : List Char)
    (hT : traceId.length = 32) (hTh : traceId.all isHexDigit = true)
    (hS : spanId.length = 16) (hSh : spanId.all isHexDigit = true) :
    parseTraceparent (toTraceparent traceId spanId) =
      some ⟨['0', '0'], traceId, spanId, ['0', '1']⟩ := by
  have h1 : splitDash (toTraceparent traceId spanId) =
      ['0', '0'] :: traceId :: spanId :: [['0', '1']] := by
    have e : toTraceparent traceId spanId =
        ['0', '0'] ++ '-' :: (traceId ++ '-' :: (spanId ++ '-' :: ['0', '1'])) := by
      simp [toTraceparent]
    rw [e, splitDash_append ['0', '0'] _ (by decide),
      splitDash_append traceId _ (all_hex_no_dash hTh),
      splitDash_append spanId _ (all_hex_no_dash hSh),
      splitDash_no_dash ['0', '1'] (by decide)]
  simp [parseTraceparent, h1, hT, hTh, hS, hSh, hexMatch,
    List.isEmpty_eq_true, show traceId ≠ [] from by rintro rfl; simp at hT,
    show spanId ≠ [] from by rintro rfl; simp at hS]
  all_goals decide

/-- Witness for C4 at a concrete 32-hex trace id and 16-hex span id. -/
theorem parse_toTraceparent_roundtrip_witness :
    parseTraceparent (toTraceparent
        ("0af7651916cd43dd8448eb211c80319c".data) ("b7ad6b7169203331".data)) =
      some ⟨['0', '0'], "0af7651916cd43dd8448eb211c80319c".data,
            "b7ad6b7169203331".data, ['0', '1']⟩ :=
  parse_toTraceparent_roundtrip _ _ (by decide) (by decide) (by decide) (by decide)

/-- C5. `parseTraceparent` is a total function (the shallow embedding of
"never throws": every branch of the source is a plain return), and for every
input it returns `none` exactly when the input does not split on `-` into
exactly 4 fields, or the version field differs from `"00"`, or the traceId
field is not exactly 32 hex chars (lowercase or uppercase), or the spanId
field is not exactly 16 hex chars, or the flags field is not exactly 2 hex
chars; otherwise it returns the `TraceContext` with exactly those fields.
The right-hand side below is that case split, stated with one simultaneous
validity condition in place of the source's sequential early returns. -/
theorem parseTraceparent_characterization (s : List Char) :
    parseTraceparent s =
      match splitDash s with
      | [v, t, sp, f] =>
        if v = ['0', '0'] ∧ t.length = 32 ∧ hexMatch t = true ∧
            sp.length = 16 ∧ hexMatch sp = true ∧
            f.length = 2 ∧ hexMatch f = true
        then some ⟨v, t, sp, f⟩ else none
      | _ => none := by
  unfold parseTraceparent
  cases h : splitDash s with
  | nil => rfl
  | cons v rest =>
    cases rest with
    | nil => rfl
    | cons t rest2 =>
      cases rest2 with
      | nil => rfl
      | cons sp rest3 =>
        cases rest3 with
        | nil => rfl
        | cons f rest4 =>
          cases rest4 with
          | cons _ _ => rfl
          | nil =>
            dsimp only
            split_ifs <;> first | rfl | (exfalso; simp_all)

/-! ## Theorems: span engine -/

/-- C2. On a span on which `end()` has been called: every mutator
(`setAttribute`, `setAttributes`, `addEvent`, `addLink`, `addLinks`,
`setStatus`, `updateName`, `recordException`) returns the span completely
unchanged, and any further `end()` changes neither the span (in particular
`endTime`) nor the collector — the collector is appended to exactly once,
by the first `end()`. Stated for an arbitrary un-ended span `s`: the first
`end()` marks it ended and appends the ended span to the registered buffer,
and afterwards every mutator and every further `end()` is the identity. -/
theorem span_end_terminal (s : CloudflareSpan) (h : s.ended = false)
    (buf : List CloudflareSpan) (t t' : Option Nat) (now now' : Nat)
    (k : String) (v : JsValue) (attrs : List (String × JsValue))
    (evName : String) (l : Link) (ls : List Link) (st : SpanStatus)
    (n : String) (e : Exception) :
    let r := endSpanState ⟨s, some buf⟩ t now
    r.span.ended = true ∧
    r.span.endTime = some (t.getD now) ∧
    r.collector = some (buf ++ [r.span]) ∧
    endSpanState r t' now' = r ∧
    r.span.setAttribute k v = r.span ∧
    r.span.setAttributes attrs = r.span ∧
    r.span.addEvent evName attrs t' now' = r.span ∧
    r.span.addLink l = r.span ∧
    r.span.addLinks ls = r.span ∧
    r.span.setStatus st = r.span ∧
    r.span.updateName n = r.span ∧
    r.span.recordException e t' now' = r.span := by
  simp [endSpanState, h, CloudflareSpan.setAttribute,
    CloudflareSpan.setAttributes, CloudflareSpan.addEvent,
    CloudflareSpan.addLink, CloudflareSpan.addLinks,
    CloudflareSpan.setStatus, CloudflareSpan.updateName,
    CloudflareSpan.recordException]

/-- Witness for C2: a concrete freshly started span, ended once. -/
theorem span_end_terminal_witness :
    (startSpan "w" {} none ['a'] ['b'] 5).ended = false ∧
    (endSpanState ⟨startSpan "w" {} none ['a'] ['b'] 5, some []⟩
        none 7).span.ended = true := by
  refine ⟨rfl, ?_⟩
  have h := span_end_terminal (startSpan "w" {} none ['a'] ['b'] 5) rfl []
    none none 7 7 "k" (.str "v") [] "ev" ⟨⟨[], [], 0, false⟩, []⟩ []
    ⟨0, none⟩ "n" .otherExc
  exact h.1

/-- Hex digits produced by `hexDigitChar` on values below 16 pass
`isHexDigit`. -/
theorem isHexDigit_hexDigitChar (n : Nat) (h : n < 16) :
    isHexDigit (hexDigitChar n) = true := by
  interval_cases n <;> decide

/-- Id generation yields two hex characters per byte. -/
theorem generateTraceId_length (bytes : List (Fin 256)) :
    (generateTraceId bytes).length = 2 * bytes.length := by
  induction bytes with
  | nil => rfl
  | cons b rest ih =>
    simp only [generateTraceId, List.map_cons, List.flatten_cons,
      List.length_append, List.length_cons] at *
    simp [byteToHex, ih]
    omega

/-- Every character of a generated id is a lowercase hex digit. -/
theorem generateTraceId_hex (bytes : List (Fin 256)) :
    (generateTraceId bytes).all isHexDigit = true := by
  induction bytes with
  | nil => rfl
  | cons b rest ih =>
    simp only [generateTraceId, List.map_cons, List.flatten_cons,
      List.all_append] at *
    refine (Bool.and_eq_true _ _).mpr ⟨?_, ih⟩
    have hb := b.isLt
    have h1 : b.val / 16 < 16 := Nat.div_lt_of_lt_mul (by omega)
    have h2 : b.val % 16 < 16 := Nat.mod_lt _ (by omega)
    simp [byteToHex, isHexDigit_hexDigitChar _ h1, isHexDigit_hexDigitChar _ h2]

/-- C3. A span created by `CloudflareTracer.startSpan`: with an active
parent in the effective context it inherits the parent's trace id and gets
`parentSpanId` equal to the parent's span id; with no parent its trace id is
the freshly generated one and it has no `parentSpanId`; in both cases its
span id is the freshly generated one and its kind defaults to
`SpanKind.INTERNAL` when no kind option is given. Fresh ids generated from
16 (resp. 8) random bytes are exactly 32 (resp. 16) lowercase hex
characters. -/
theorem startSpan_parenting (name : String) (options : SpanOptions)
    (p : SpanContext) (ft fs : List Char) (now : Nat)
    (tb sb : List (Fin 256)) (htb : tb.length = 16) (hsb : sb.length = 8)
    (hkind : options.kind = none) :
    ((startSpan name options (some p) ft fs now).spanContext.traceId
        = p.traceId ∧
      (startSpan name options (some p) ft fs now).parentSpanId
        = some p.spanId ∧
      (startSpan name options (some p) ft fs now).spanContext.spanId = fs) ∧
    ((startSpan name options none ft fs now).spanContext.traceId = ft ∧
      (startSpan name options none ft fs now).parentSpanId = none ∧
      (startSpan name options none ft fs now).spanContext.spanId = fs) ∧
    (startSpan name options none ft fs now).kind = SpanKind.internal ∧
    (startSpan name options (some p) ft fs now).kind = SpanKind.internal ∧
    (generateTraceId tb).length = 32 ∧
    (generateTraceId tb).all isHexDigit = true ∧
    (generateSpanId sb).length = 16 ∧
    (generateSpanId sb).all isHexDigit = true := by
  refine ⟨⟨rfl, rfl, rfl⟩, ⟨rfl, rfl, rfl⟩, ?_, ?_, ?_, ?_, ?_, ?_⟩
  · simp [startSpan, hkind]
  · simp [startSpan, hkind]
  · rw [generateTraceId_length, htb]
  · exact generateTraceId_hex tb
  · show (generateTraceId sb).length = 16
    rw [generateTraceId_length, hsb]
  · exact generateTraceId_hex sb

/-- Witness for C3 at concrete inputs. -/
theorem startSpan_parenting_witness :
    (startSpan "s" {} none ['a'] ['b'] 0).parentSpanId = none ∧
    (generateTraceId (List.replicate 16 (0 : Fin 256))).length = 32 := by
  have h := startSpan_parenting "s" {} ⟨['t'], ['p'], 1, true⟩ ['a'] ['b'] 0
    (List.replicate 16 (0 : Fin 256)) (List.replicate 8 (0 : Fin 256))
    (by decide) (by decide) rfl
  exact ⟨h.2.1.2.1, h.2.2.2.2.1⟩

/-! ## Theorems: startActiveSpan settle paths -/

/-- C1. For every callback of `startActiveSpan` (modelled as a span
mutation `g` that does not itself end the span, together with one of the
four settle paths), the created span is ended exactly once when the callback
settles: the registered collector receives exactly one new entry, the ended
span itself. On the sync-return and async-resolve paths the value is
returned and the span's events and status are untouched; on the async-reject
and sync-throw paths the exception is recorded onto the span as an
`"exception"` event, the status is set to error, the span is ended, and the
same error is re-raised to the caller. -/
theorem startActiveSpan_settles {α : Type} (name : String)
    (options : SpanOptions) (parent : Option SpanContext)
    (ft fs : List Char) (now : Nat) (g : TraceState → TraceState)
    (buf : List CloudflareSpan)
    (hg : (g ⟨startSpan name options parent ft fs now, some buf⟩).span.ended
      = false) :
    (∀ v : α,
      (startActiveSpan name options parent ft fs now
          (fun st => (g st, .syncReturn v)) (some buf)).1.span.ended = true ∧
      (startActiveSpan name options parent ft fs now
          (fun st => (g st, .syncReturn v)) (some buf)).1.collector =
        (g ⟨startSpan name options parent ft fs now, some buf⟩).collector.map
          (fun b => b ++ [(startActiveSpan name options parent ft fs now
            (fun st => (g st, .syncReturn v)) (some buf)).1.span]) ∧
      (startActiveSpan name options parent ft fs now
          (fun st => (g st, .syncReturn v)) (some buf)).2 = .ok v ∧
      (startActiveSpan name options parent ft fs now
          (fun st => (g st, .syncReturn v)) (some buf)).1.span.events =
        (g ⟨startSpan name options parent ft fs now, some buf⟩).span.events ∧
      (startActiveSpan name options parent ft fs now
          (fun st => (g st, .syncReturn v)) (some buf)).1.span.status =
        (g ⟨startSpan name options parent ft fs now, some buf⟩).span.status) ∧
    (∀ v : α,
      (startActiveSpan name options parent ft fs now
          (fun st => (g st, .asyncResolve v)) (some buf)).1.span.ended = true ∧
      (startActiveSpan name options parent ft fs now
          (fun st => (g st, .asyncResolve v)) (some buf)).1.collector =
        (g ⟨startSpan name options parent ft fs now, some buf⟩).collector.map
          (fun b => b ++ [(startActiveSpan name options parent ft fs now
            (fun st => (g st, .asyncResolve v)) (some buf)).1.span]) ∧
      (startActiveSpan name options parent ft fs now
          (fun st => (g st, .asyncResolve v)) (some buf)).2 = .ok v ∧
      (startActiveSpan name options parent ft fs now
          (fun st => (g st, .asyncResolve v)) (some buf)).1.span.events =
        (g ⟨startSpan name options parent ft fs now, some buf⟩).span.events ∧
      (startActiveSpan name options parent ft fs now
          (fun st => (g st, .asyncResolve v)) (some buf)).1.span.status =
        (g ⟨startSpan name options parent ft fs now, some buf⟩).span.status) ∧
    (∀ e : Exception,
      (startActiveSpan (α := α) name options parent ft fs now
          (fun st => (g st, .asyncReject e)) (some buf)).1.span.ended = true ∧
      (startActiveSpan (α := α) name options parent ft fs now
          (fun st => (g st, .asyncReject e)) (some buf)).1.collector =
        (g ⟨startSpan name options parent ft fs now, some buf⟩).collector.map
          (fun b => b ++ [(startActiveSpan (α := α) name options parent ft fs
            now (fun st => (g st, .asyncReject e)) (some buf)).1.span]) ∧
      (startActiveSpan (α := α) name options parent ft fs now
          (fun st => (g st, .asyncReject e)) (some buf)).2 = .error e ∧
      (startActiveSpan (α := α) name options parent ft fs now
          (fun st => (g st, .asyncReject e)) (some buf)).1.span.events =
        (g ⟨startSpan name options parent ft fs now, some buf⟩).span.events ++
          [⟨"exception", now, exceptionAttributes e⟩] ∧
      (startActiveSpan (α := α) name options parent ft fs now
          (fun st => (g st, .asyncReject e)) (some buf)).1.span.status =
        ⟨ERROR, none⟩) ∧
    (∀ e : Exception,
      (startActiveSpan (α := α) name options parent ft fs now
          (fun st => (g st, .syncThrow e)) (some buf)).1.span.ended = true ∧
      (startActiveSpan (α := α) name options parent ft fs now
          (fun st => (g st, .syncThrow e)) (some buf)).1.collector =
        (g ⟨startSpan name options parent ft fs now, some buf⟩).collector.map
          (fun b => b ++ [(startActiveSpan (α := α) name options parent ft fs
            now (fun st => (g st, .syncThrow e)) (some buf)).1.span]) ∧
      (startActiveSpan (α := α) name options parent ft fs now
          (fun st => (g st, .syncThrow e)) (some buf)).2 = .error e ∧
      (startActiveSpan (α := α) name options parent ft fs now
          (fun st => (g st, .syncThrow e)) (some buf)).1.span.events =
        (g ⟨startSpan name options parent ft fs now, some buf⟩).span.events ++
          [⟨"exception", now, exceptionAttributes e⟩] ∧
      (startActiveSpan (α := α) name options parent ft fs now
          (fun st => (g st, .syncThrow e)) (some buf)).1.span.status =
        ⟨ERROR, none⟩) := by
  refine ⟨fun v => ?_, fun v => ?_, fun e => ?_, fun e => ?_⟩ <;>
    simp [startActiveSpan, startActiveSpanRun, endSpanState, hg,
      CloudflareSpan.recordException, CloudflareSpan.addEvent,
      CloudflareSpan.setStatus, ERROR]

/-- Witness for C1: a concrete rejected callback is re-raised and the span
is ended. -/
theorem startActiveSpan_settles_witness :
    (startActiveSpan (α := Nat) "w" {} none ['a'] ['b'] 3
        (fun st => (st, .asyncReject (.strExc "boom"))) (some [])).2 =
      .error (.strExc "boom") ∧
    (startActiveSpan (α := Nat) "w" {} none ['a'] ['b'] 3
        (fun st => (st, .asyncReject (.strExc "boom"))) (some [])).1.span.ended
      = true := by
  have h := startActiveSpan_settles (α := Nat) "w" {} none ['a'] ['b'] 3
    id [] rfl
  exact ⟨(h.2.2.1 (.strExc "boom")).2.2.1, (h.2.2.1 (.strExc "boom")).1⟩

/-! ## Theorems: withTrace rejection path -/

/-- C9. For every callback passed to `withTrace` that rejects with `e` (and
does not itself end the span, record exception events, or set a status), the
result of `withTrace` re-raises the same `e`, the span is ended (the
collector receives it exactly once), exactly one `"exception"` event is
recorded on it, and the span's status code remains `UNSET` rather than
`ERROR`: `withTrace`'s own rejection handler records the exception and ends
the span first, so `startActiveSpan`'s later `setStatus(ERROR)` (and its
`recordException` and `end`) hit an already-ended span and are no-ops. -/
theorem withTrace_reject_keeps_status_unset {α : Type} (name : String)
    (options : SpanOptions) (parent : Option SpanContext)
    (ft fs : List Char) (now : Nat) (g : TraceState → TraceState)
    (buf : List CloudflareSpan) (e : Exception)
    (hg1 : (g ⟨startSpan name options parent ft fs now, some buf⟩).span.ended
      = false)
    (hg2 : countExceptionEvents
      (g ⟨startSpan name options parent ft fs now, some buf⟩).span = 0)
    (hg3 : (g ⟨startSpan name options parent ft fs now, some buf⟩).span.status
      = ⟨UNSET, none⟩) :
    (withTrace (α := α) name options parent ft fs now
        (fun st => (g st, .asyncReject e)) (some buf)).2 = .error e ∧
    (withTrace (α := α) name options parent ft fs now
        (fun st => (g st, .asyncReject e)) (some buf)).1.span.ended = true ∧
    countExceptionEvents (withTrace (α := α) name options parent ft fs now
        (fun st => (g st, .asyncReject e)) (some buf)).1.span = 1 ∧
    (withTrace (α := α) name options parent ft fs now
        (fun st => (g st, .asyncReject e)) (some buf)).1.span.status =
      ⟨UNSET, none⟩ ∧
    (withTrace (α := α) name options parent ft fs now
        (fun st => (g st, .asyncReject e)) (some buf)).1.collector =
      (g ⟨startSpan name options parent ft fs now, some buf⟩).collector.map
        (fun b => b ++ [(withTrace (α := α) name options parent ft fs now
          (fun st => (g st, .asyncReject e)) (some buf)).1.span]) := by
  unfold countExceptionEvents at *
  simp [withTrace, startActiveSpan, startActiveSpanRun, withTraceInner,
    endSpanState, hg1, hg3, CloudflareSpan.recordException,
    CloudflareSpan.addEvent, CloudflareSpan.setStatus, List.filter_append,
    hg2, UNSET]

/-- Witness for C9 at a concrete rejecting callback. -/
theorem withTrace_reject_keeps_status_unset_witness :
    (withTrace (α := Nat) "w" {} none ['a'] ['b'] 3
        (fun st => (st, .asyncReject (.strExc "boom"))) (some [])).1.span.status
      = ⟨UNSET, none⟩ := by
  have h := withTrace_reject_keeps_status_unset (α := Nat) "w" {} none
    ['a'] ['b'] 3 id [] (.strExc "boom") rfl rfl rfl
  exact h.2.2.2.1

/-! ## Theorems: OTLP attribute encoding -/

/-- C6. The exporter's attribute encoding: nested plain objects flatten to
dot-joined key paths (concretely, `{request:{body:"x"}}` yields the key
`"request.body"` with string value `"x"`, and in general a nested leaf under
a non-empty outer key lands at `outer.inner`); an array value is kept whole
by the flattening and serialized as one JSON string value (not flattened per
element); and at leaves: strings pass through, integral numbers become an
integer-value field (decimal string), non-integral numbers a float-value
field, booleans pass through, `null` and `undefined` become the empty string
value, and a `Date` becomes its ISO-8601 string. -/
theorem attributesToOTLP_spec :
    attributesToOTLP [("request", .obj [("body", .str "x")])] =
      [⟨"request.body", .stringValue "x"⟩] ∧
    (∀ (k1 k2 : String) (v : JsValue), k1 ≠ "" → isPlainObject v = false →
      attributesToOTLP [(k1, .obj [(k2, v)])] =
        [⟨k1 ++ "." ++ k2, toOTLPValue v⟩]) ∧
    (∀ (k : String) (xs : List JsValue),
      flattenAttributes [(k, .arr xs)] = [(k, .arr xs)] ∧
      attributesToOTLP [(k, .arr xs)] =
        [⟨k, .stringValue
          ("[" ++ String.intercalate "," (jsonStringifyElems xs) ++ "]")⟩]) ∧
    (∀ s, toOTLPValue (.str s) = .stringValue s) ∧
    (∀ q : Rat, q.den = 1 → toOTLPValue (.num q) = .intValue (toString q.num)) ∧
    (∀ q : Rat, q.den ≠ 1 → toOTLPValue (.num q) = .doubleValue q) ∧
    (∀ b, toOTLPValue (.bool b) = .boolValue b) ∧
    toOTLPValue .null = .stringValue "" ∧
    toOTLPValue .undefined = .stringValue "" ∧
    (∀ iso, toOTLPValue (.date iso) = .stringValue iso) := by
  refine ⟨?_, ?_, ?_, fun s => rfl, ?_, ?_, fun b => rfl, rfl, rfl,
    fun iso => rfl⟩
  · simp [attributesToOTLP, flattenAttributes, flattenAux, assignAll,
      setKey, toOTLPValue]
  · intro k1 k2 v hk hv
    cases v <;> simp_all [attributesToOTLP, flattenAttributes, flattenAux,
      assignAll, setKey, isPlainObject]
  · intro k xs
    constructor <;>
      simp [attributesToOTLP, flattenAttributes, flattenAux, setKey,
        toOTLPValue, jsonStringify]
  · intro q hq
    simp [toOTLPValue, hq]
  · intro q hq
    simp [toOTLPValue, hq]

/-- Witness for C6 at concrete values: a nested object flattens, an array
becomes a JSON string, an integral number becomes an int value. -/
theorem attributesToOTLP_spec_witness :
    attributesToOTLP [("a", .obj [("b", .str "z")])] =
      [⟨"a.b", .stringValue "z"⟩] ∧
    attributesToOTLP [("xs", .arr [.str "y", .null])] =
      [⟨"xs", .stringValue "[\"y\",null]"⟩] ∧
    toOTLPValue (.num (7 : Rat)) = .intValue "7" := by
  have h := attributesToOTLP_spec
  refine ⟨?_, ?_, ?_⟩
  · have h1 := h.2.1 "a" "b" (.str "z") (by decide) rfl
    rw [h1]
    decide
  · have h3 := (h.2.2.1 "xs" [.str "y", .null]).2
    rw [h3]
    simp only [jsonStringifyElems, jsonStringify, jsonQuote, jsonEscapeChar,
      Option.getD_some]
    decide
  · have h2 := h.2.2.2.2.1 (7 : Rat) (by norm_num)
    rw [h2, show ((7 : Rat).num) = (7 : Int) by norm_num]
    decide

/-! ## Theorems: best-effort export -/

/-- C7. For every exporter configuration and every non-empty list of spans
and of log entries, `exportTraces` and `exportLogs` never raise to their
caller — the returned promise resolves (`Except.ok ()`) for every possible
transport outcome; and when the transport rejects or the response is
non-2xx, the failure is logged to the console side channel (the error list
is non-empty) while the export still resolves normally. -/
theorem export_best_effort (config : OTLPExporterConfig)
    (spans : List CloudflareSpan) (logs : List LogEntry) (svc : String)
    (now : Nat)
    (tT : String → ExportTraceServiceRequest → Except String HttpResponse)
    (tL : String → ExportLogsServiceRequest → Except String HttpResponse)
    (hs : spans ≠ []) (hl : logs ≠ []) :
    (exportTraces config spans svc now tT).result = .ok () ∧
    (exportLogs config logs svc tL).result = .ok () ∧
    (isTransportFailure (tT (config.endpoint ++ "/v1/traces")
        (buildTraceExportRequest spans (config.serviceName.getD svc)
          config.resourceAttributes "5.3.0" now)) = true →
      (exportTraces config spans svc now tT).consoleErrors ≠ []) ∧
    (isTransportFailure (tL (config.endpoint ++ "/v1/logs")
        (buildLogExportRequest logs (config.serviceName.getD svc)
          config.resourceAttributes "5.3.0")) = true →
      (exportLogs config logs svc tL).consoleErrors ≠ []) := by
  have hs0 : spans.length ≠ 0 := by simpa using hs
  have hl0 : logs.length ≠ 0 := by simpa using hl
  refine ⟨?_, ?_, ?_, ?_⟩
  · unfold exportTraces
    simp only [hs0, if_false]
    cases tT (config.endpoint ++ "/v1/traces")
        (buildTraceExportRequest spans (config.serviceName.getD svc)
          config.resourceAttributes "5.3.0" now) with
    | error e => rfl
    | ok r => by_cases hr : r.ok <;> simp [hr]
  · unfold exportLogs
    simp only [hl0, if_false]
    cases tL (config.endpoint ++ "/v1/logs")
        (buildLogExportRequest logs (config.serviceName.getD svc)
          config.resourceAttributes "5.3.0") with
    | error e => rfl
    | ok r =>
      by_cases hr : r.ok
      · simp [hr]
      · cases ht : r.text with
        | error e => simp [hr, ht]
        | ok t => simp [hr, ht]
  · intro hfail
    unfold exportTraces
    simp only [hs0, if_false]
    unfold isTransportFailure at hfail
    cases h : tT (config.endpoint ++ "/v1/traces")
        (buildTraceExportRequest spans (config.serviceName.getD svc)
          config.resourceAttributes "5.3.0" now) with
    | error e => simp
    | ok r =>
      rw [h] at hfail
      simp_all
  · intro hfail
    unfold exportLogs
    simp only [hl0, if_false]
    unfold isTransportFailure at hfail
    cases h : tL (config.endpoint ++ "/v1/logs")
        (buildLogExportRequest logs (config.serviceName.getD svc)
          config.resourceAttributes "5.3.0") with
    | error e => simp
    | ok r =>
      rw [h] at hfail
      cases ht : r.text <;> simp_all [ht]

/-- Witness for C7: a concrete export whose transport rejects still
resolves, with a console error logged. -/
theorem export_best_effort_witness :
    (exportTraces ⟨"http://collector", [], none, none⟩
        [startSpan "w" {} none ['a'] ['b'] 0] "svc" 9
        (fun _ _ => .error "network down")).result = .ok () ∧
    (exportTraces ⟨"http://collector", [], none, none⟩
        [startSpan "w" {} none ['a'] ['b'] 0] "svc" 9
        (fun _ _ => .error "network down")).consoleErrors ≠ [] := by
  have h := export_best_effort ⟨"http://collector", [], none, none⟩
    [startSpan "w" {} none ['a'] ['b'] 0]
    [⟨.info, "m", 1, [], none, none, none⟩] "svc" 9
    (fun _ _ => .error "network down") (fun _ _ => .error "boom")
    (by simp) (by simp)
  exact ⟨h.1, h.2.2.1 rfl⟩

/-! ## Theorems: ignore-list bypass in the request adapters -/

/-- Counterexample to C8 as stated. For the concrete ignored request
`GET /health` (default ignore list, no registered collector, no active
parent), `traceHandler` does NOT bypass span creation entirely: it creates a
real recording span via `tracer.startSpan("noop")` (recording at creation),
ends it, and that span IS added to the Collector registered by `initOTLP` —
the collector ends up holding one span instead of none. -/
theorem traceHandler_ignore_pollutes_collector :
    ((traceHandlerRun ⟨"GET", "/health", none⟩ (fun _ => ⟨200, "ok"⟩)
        none none none ['a'] ['b'] 0).collector.getD []).length = 1 ∧
    (startSpan "noop" {} none ['a'] ['b'] 0).isRecording = true := by
  constructor
  · rfl
  · rfl

/-- C8 as amended. For every request whose pathname matches the configured
ignore list (exact string equality for string patterns, regex test for
pattern entries, defaulting to the health-check list): the `instrument()`
fetch wrapper bypasses tracing entirely — it invokes the wrapped handler,
returns its result, creates no span, and leaves the collector untouched;
`traceHandler` also still invokes the handler and returns its result, but
instead of a non-recording placeholder it creates one short-lived span named
`"noop"` which is already ended (hence non-recording) by the time the
handler receives it, and which is appended to the collector that `initOTLP`
registered at entry. -/
theorem ignore_paths_bypass (opts : InstrumentOptionsObject)
    (f : Request → Response) (handler : CloudflareSpan → Response)
    (req : Request) (collector : Option (List CloudflareSpan))
    (buf : List CloudflareSpan) (ap : Option SpanContext)
    (ft fs : List Char) (now : Nat)
    (hig : shouldIgnoreUrl req.pathname opts.ignoreUrls = true) :
    instrumentFetchRun opts f req collector ft fs now =
      ⟨f req, collector, []⟩ ∧
    ((traceHandlerRun req handler opts.ignoreUrls ap (some buf) ft fs
        now).handlerSpan.ended = true ∧
      (traceHandlerRun req handler opts.ignoreUrls ap (some buf) ft fs
        now).response = handler (traceHandlerRun req handler opts.ignoreUrls
          ap (some buf) ft fs now).handlerSpan ∧
      (traceHandlerRun req handler opts.ignoreUrls ap (some buf) ft fs
        now).handlerSpan.name = "noop" ∧
      (traceHandlerRun req handler opts.ignoreUrls ap (some buf) ft fs
        now).collector = some (buf ++ [(traceHandlerRun req handler
          opts.ignoreUrls ap (some buf) ft fs now).handlerSpan])) := by
  refine ⟨?_, ?_, ?_, ?_, ?_⟩ <;>
    simp [instrumentFetchRun, traceHandlerRun, hig, initOTLP, endSpanState,
      startSpan]

/-- Witness for the amended C8 at a concrete ignored request. -/
theorem ignore_paths_bypass_witness :
    instrumentFetchRun {} (fun _ => ⟨200, "ok"⟩) ⟨"GET", "/health", none⟩
        (some []) ['a'] ['b'] 0 = ⟨⟨200, "ok"⟩, some [], []⟩ ∧
    (traceHandlerRun ⟨"GET", "/health", none⟩ (fun _ => ⟨200, "ok"⟩)
        none none (some []) ['a'] ['b'] 0).handlerSpan.ended = true := by
  have h := ignore_paths_bypass {} (fun _ => ⟨200, "ok"⟩)
    (fun _ => ⟨200, "ok"⟩) ⟨"GET", "/health", none⟩ (some []) [] none
    ['a'] ['b'] 0 (by rfl)
  exact ⟨h.1, h.2.1⟩

/-! ## Theorems: TracedError custom instanceof -/

/-- C10. For every value `e`, the check `e instanceof TracedError` (the
custom `Symbol.hasInstance`) returns true if and only if following the chain
`e`, `e.cause`, `e.cause.cause`, ... while each element is an `Error`
reaches an object whose direct prototype is `TracedError.prototype` (such a
value is in particular an object); concretely, a plain `Error` that merely
carries a `TracedError` as its cause satisfies `instanceof TracedError` even
though it was not constructed as one. -/
theorem tracedError_hasInstance_iff :
    (∀ v : JsErrValue,
      tracedErrorHasInstance v = true ↔ ReachesTracedProto v) ∧
    tracedErrorHasInstance (.plainError (.traced .primitive)) = true := by
  constructor
  · intro v
    induction v with
    | traced c ih =>
      simp only [tracedErrorHasInstance, hasInstanceWalk, true_iff]
      exact ReachesTracedProto.here c
    | plainError c ih =>
      constructor
      · intro h
        have hw : hasInstanceWalk c = true := by
          simpa [tracedErrorHasInstance, hasInstanceWalk] using h
        have hc : tracedErrorHasInstance c = true := by
          cases c <;> simp_all [tracedErrorHasInstance, hasInstanceWalk]
        exact ReachesTracedProto.step c (ih.mp hc)
      · intro h
        cases h with
        | step c hc =>
          have := ih.mpr hc
          cases c <;>
            simp_all [tracedErrorHasInstance, hasInstanceWalk]
    | nonErrorObject =>
      simp [tracedErrorHasInstance, hasInstanceWalk]
      intro h
      cases h
    | primitive =>
      simp [tracedErrorHasInstance]
      intro h
      cases h
  · rfl

end OtelCloudflare
